import Mathlib

/-!
Verification of the PCA9685 servo-controller driver (src/i2c/pca9685.py)
against its natural-language specification.

Shallow embedding conventions:
* Python integers at the call sites under verification are non-negative, so
  register addresses, mode bytes, channel numbers and tick counts are `Nat`.
  Python `x & ~MASK` on a non-negative `x` is `Nat.ldiff x MASK`
  (keep the bits of `x` that are not in `MASK`), `x & y` is `x &&& y`,
  `x | y` is `x ||| y` and `x >> n` is `x >>> n`.
* The prescale value is produced by `int(math.floor(... + 0.5))` on floats;
  it is embedded over `ℚ` with `Int.floor`, so its type is `ℤ`.  At the
  arguments the claims use, the intermediate values are far from the
  half-integer rounding boundaries, so exact rational arithmetic agrees
  with IEEE doubles there.
* Each controller method is embedded as the sequence of I2C transactions
  (and timed suspensions) it performs: `write_reg`, `read_reg`, `write_raw`
  and the `i2cdetect` probe each become one `Event`.  `write_reg` and
  `write_raw` run their subprocess with `capture_output=True` and never
  inspect the result, so a write transaction always "succeeds" from the
  Python program's point of view; `read_reg` parses the subprocess output
  with `int(_, 16)`, which raises `ValueError` when the output is not a
  hexadecimal numeral (e.g. empty output after a failed `i2cget`).
  A `Transport` records the outcome the bus would give each transaction;
  the embedding shows which outcomes the code actually consults.
-/

namespace PCA9685

/-- Register addresses (class constants of `PCA9685`, src lines 30-44). -/
def MODE1 : Nat := 0x00

def MODE2 : Nat := 0x01

def PRESCALE : Nat := 0xFE

def LED0_ON_L : Nat := 0x06

def LED0_ON_H : Nat := 0x07

def LED0_OFF_L : Nat := 0x08

def LED0_OFF_H : Nat := 0x09

def ALL_LED_ON_L : Nat := 0xFA

def ALL_LED_ON_H : Nat := 0xFB

def ALL_LED_OFF_L : Nat := 0xFC

def ALL_LED_OFF_H : Nat := 0xFD

/-- Mode-register bit masks (src lines 46-50). -/
def RESTART : Nat := 0x80

def SLEEP : Nat := 0x10

def ALLCALL : Nat := 0x01

def OUTDRV : Nat := 0x04

/-- One observable action of the driver: a probe (`i2cdetect`), a register
write (`i2cset bus addr reg val`), a register read (`i2cget bus addr reg`,
recording the parsed result, `none` when the output was unparseable), a raw
single-byte write (`i2cset bus addr val`, no register phase), or a timed
suspension of the given number of milliseconds (`time.sleep`). -/
inductive Event where
  | probe : Event
  | writeReg : Nat → ℤ → Event
  | readReg : Nat → Option Nat → Event
  | writeRaw : Nat → Event
  | sleepMs : Nat → Event
deriving DecidableEq, Repr

/-- The outcomes the I2C bus would give the driver's transactions.
`writeOk` says whether an `i2cset` of a value to a register would exit
successfully, `probeOk` likewise for `i2cdetect`; `read_val` gives the
parsed result an `i2cget` of a register would produce (`none`: the command
failed or printed something `int(_, 16)` cannot parse). -/
structure Transport where
  probeOk : Bool
  writeOk : Nat → ℤ → Bool
  read_val : Nat → Option Nat

/-- The only exception the embedded fragment can raise: `int(_, 16)` on
unparseable `i2cget` output (src `read_reg`, line 121). -/
inductive PyErr where
  | valueError : PyErr
deriving DecidableEq, Repr

/-- `set_pwm(channel, on, off)` (src lines 83-88): four register writes,
no validation, no reads, and the subprocess results are never inspected,
so the method cannot fail. -/
def set_pwm (channel on_ticks off_ticks : Nat) : List Event :=
  [Event.writeReg (LED0_ON_L + 4 * channel) (on_ticks &&& 0xFF : Nat),
   Event.writeReg (LED0_ON_H + 4 * channel) (on_ticks >>> 8 : Nat),
   Event.writeReg (LED0_OFF_L + 4 * channel) (off_ticks &&& 0xFF : Nat),
   Event.writeReg (LED0_OFF_H + 4 * channel) (off_ticks >>> 8 : Nat)]

/-- `set_all_pwm(on, off)` (src lines 90-95): four writes to the
broadcast registers. -/
def set_all_pwm (on_ticks off_ticks : Nat) : List Event :=
  [Event.writeReg ALL_LED_ON_L (on_ticks &&& 0xFF : Nat),
   Event.writeReg ALL_LED_ON_H (on_ticks >>> 8 : Nat),
   Event.writeReg ALL_LED_OFF_L (off_ticks &&& 0xFF : Nat),
   Event.writeReg ALL_LED_OFF_H (off_ticks >>> 8 : Nat)]

/-- `software_reset()` (src line 97-98): one raw write of 0x06. -/
def software_reset : List Event :=
  [Event.writeRaw 0x06]

/-- The prescale computation of `set_pwm_freq` (src lines 66-72):
`prescaleval = 25000000.0; prescaleval /= 4096.0; prescaleval /= freq_hz;`
`prescaleval -= 1.0; prescale = int(math.floor(prescaleval + 0.5))`,
embedded over exact rationals. -/
def computePrescale (freq_hz : ℚ) : ℤ :=
  let p1 : ℚ := 25000000
  let p2 : ℚ := p1 / 4096
  let p3 : ℚ := p2 / freq_hz
  let p4 : ℚ := p3 - 1
  ⌊p4 + 1 / 2⌋

/-- `set_pwm_freq(freq_hz)` (src lines 64-81): read MODE1; if the readback
is unparseable the method stops with `ValueError`; otherwise write
MODE1 = (oldmode & ~RESTART) | SLEEP, write PRESCALE, write MODE1 = oldmode,
sleep 5 ms, write MODE1 = oldmode | RESTART. -/
def set_pwm_freq (t : Transport) (freq_hz : ℚ) : List Event × Option PyErr :=
  match t.read_val MODE1 with
  | none => ([Event.readReg MODE1 none], some PyErr.valueError)
  | some oldmode =>
    ([Event.readReg MODE1 (some oldmode),
      Event.writeReg MODE1 ((Nat.ldiff oldmode RESTART) ||| SLEEP : Nat),
      Event.writeReg PRESCALE (computePrescale freq_hz),
      Event.writeReg MODE1 (oldmode : Nat),
      Event.sleepMs 5,
      Event.writeReg MODE1 (oldmode ||| RESTART : Nat)], none)

/-- `PCA9685.__init__` (src lines 52-62, including the inherited
`MCP2221A.detect` probe): probe, `set_all_pwm(0, 0)`, write MODE2 = OUTDRV,
write MODE1 = ALLCALL, sleep 5 ms, read MODE1, write MODE1 with the SLEEP
bit cleared, sleep 5 ms.  Write outcomes are never consulted; only an
unparseable MODE1 readback aborts construction (with `ValueError`). -/
def init (t : Transport) : List Event × Option PyErr :=
  let pre : List Event :=
    Event.probe :: set_all_pwm 0 0 ++
      [Event.writeReg MODE2 (OUTDRV : Nat),
       Event.writeReg MODE1 (ALLCALL : Nat),
       Event.sleepMs 5]
  match t.read_val MODE1 with
  | none => (pre ++ [Event.readReg MODE1 none], some PyErr.valueError)
  | some mode1 =>
    (pre ++ [Event.readReg MODE1 (some mode1),
             Event.writeReg MODE1 (Nat.ldiff mode1 SLEEP : Nat),
             Event.sleepMs 5], none)

/-- The low/high byte split used inline by `set_pwm` and `set_all_pwm`
(src lines 85-95): low byte `ticks & 0xFF`, high byte `ticks >> 8`. -/
def splitTicks (ticks : Nat) : Nat × Nat :=
  (ticks &&& 0xFF, ticks >>> 8)

/-- One invocation of a controller method, together with the transport
outcomes it would observe (only `init` and `set_pwm_freq` read the bus). -/
inductive Op where
  | opInit : Transport → Op
  | opSetPwmFreq : Transport → ℚ → Op
  | opSetPwm : Nat → Nat → Nat → Op
  | opSetAllPwm : Nat → Nat → Op
  | opSoftwareReset : Op

/-- The transactions one method invocation emits (for the fallible methods,
the transactions emitted up to the point of the exception, if any). -/
def opTrace : Op → List Event
  | Op.opInit t => (init t).1
  | Op.opSetPwmFreq t f => (set_pwm_freq t f).1
  | Op.opSetPwm c a b => set_pwm c a b
  | Op.opSetAllPwm a b => set_all_pwm a b
  | Op.opSoftwareReset => software_reset

/-- The transaction sequence of a whole sequence of method invocations. -/
def progTrace : List Op → List Event
  | [] => []
  | op :: rest => opTrace op ++ progTrace rest

/-- The SLEEP bit of the most recent MODE1 write in a trace, starting from
`s` (`none`: no MODE1 write has happened yet). -/
def lastSleepBit : Option Bool → List Event → Option Bool
  | s, [] => s
  | s, Event.writeReg r v :: rest =>
      lastSleepBit (if r = MODE1 then some (v.toNat.testBit 4) else s) rest
  | s, _ :: rest => lastSleepBit s rest

/-- Checks, over a trace, that every write to the PRESCALE register happens
while the most recent MODE1 write left the SLEEP bit set (and that some
MODE1 write precedes it at all). -/
def prescaleSleepOK : Option Bool → List Event → Bool
  | _, [] => true
  | s, Event.writeReg r v :: rest =>
      if r = PRESCALE then
        (s == some true) && prescaleSleepOK s rest
      else if r = MODE1 then prescaleSleepOK (some (v.toNat.testBit 4)) rest
      else prescaleSleepOK s rest
  | s, _ :: rest => prescaleSleepOK s rest

/-- Every `set_pwm` invocation in the sequence uses a channel in the
documented domain [0, 15]. -/
def validChannels : List Op → Bool
  | [] => true
  | Op.opSetPwm c _ _ :: rest => decide (c ≤ 15) && validChannels rest
  | _ :: rest => validChannels rest

/-- Whether an event is a timed suspension. -/
def isSleepEvent : Event → Bool
  | Event.sleepMs _ => true
  | _ => false

/-- A bus on which every transaction succeeds and every readback is 0x00. -/
def tReadZero : Transport :=
  ⟨true, fun _ _ => true, fun _ => some 0⟩

/-- A bus on which every transaction succeeds and every readback is 0x31
(RESTART clear, SLEEP set, sub-address and ALLCALL bits exercised). -/
def tRead49 : Transport :=
  ⟨true, fun _ _ => true, fun _ => some 0x31⟩

/-- A bus that would fail every `i2cset` to the MODE2 register but still
answers reads with 0x00: the transport failure mode of claim C4. -/
def tNoAckMode2 : Transport :=
  ⟨true, fun r _ => !(r == MODE2), fun _ => some 0⟩

/-- A bus whose `i2cget` commands fail, producing unparseable output. -/
def tReadFail : Transport :=
  ⟨true, fun _ _ => true, fun _ => none⟩

/-- A representative controller session: construction, frequency
calibration, one single-channel write, one broadcast write, soft reset. -/
def sessionOps : List Op :=
  [Op.opInit tReadZero, Op.opSetPwmFreq tReadZero 60,
   Op.opSetPwm 0 0 150, Op.opSetAllPwm 0 150, Op.opSoftwareReset]

/-- `m & ~k` on naturals, rewritten through kernel-computable operations:
clearing the bits of `k` is xor-ing away the bits shared with `k`. -/
theorem ldiff_eq_xor_and (m k : Nat) : Nat.ldiff m k = m ^^^ (m &&& k) := by
  apply Nat.eq_of_testBit_eq
  intro i
  rw [Nat.testBit_ldiff, Nat.testBit_xor, Nat.testBit_and]
  cases m.testBit i <;> cases k.testBit i <;> rfl

/-- Clearing SLEEP leaves every bit other than bit 4 unchanged. -/
theorem ldiff_sleep_testBit (m i : Nat) (hi : i ≠ 4) :
    (Nat.ldiff m SLEEP).testBit i = m.testBit i := by
  have h16 : SLEEP = 2 ^ 4 := by norm_num [SLEEP]
  rw [Nat.testBit_ldiff, h16, Nat.testBit_two_pow]
  have h4 : (4 = i) = False := by simp [Ne.symm hi]
  simp [h4]

/-- Clearing SLEEP clears bit 4. -/
theorem ldiff_sleep_testBit4 (m : Nat) : (Nat.ldiff m SLEEP).testBit 4 = false := by
  have h16 : SLEEP = 2 ^ 4 := by norm_num [SLEEP]
  rw [Nat.testBit_ldiff, h16, Nat.testBit_two_pow]
  simp

/-- The sleep-entry byte `(oldmode & ~RESTART) | SLEEP` always has the
SLEEP bit (bit 4) set. -/
theorem sleep_entry_testBit4 (m : Nat) :
    ((Nat.ldiff m RESTART) ||| SLEEP).testBit 4 = true := by
  rw [Nat.testBit_or]
  have : SLEEP = 2 ^ 4 := by norm_num [SLEEP]
  rw [this, Nat.testBit_two_pow]
  simp

/-- The prescale value the driver computes for 60 Hz. -/
theorem computePrescale_60 : computePrescale 60 = 101 := by
  simp only [computePrescale]
  rw [Int.floor_eq_iff]
  constructor <;> norm_num

/-- The full transaction sequence of a successful construction. -/
theorem init_eq (t : Transport) (m : Nat) (h : t.read_val MODE1 = some m) :
    init t = ([Event.probe,
      Event.writeReg ALL_LED_ON_L 0, Event.writeReg ALL_LED_ON_H 0,
      Event.writeReg ALL_LED_OFF_L 0, Event.writeReg ALL_LED_OFF_H 0,
      Event.writeReg MODE2 (OUTDRV : Nat), Event.writeReg MODE1 (ALLCALL : Nat),
      Event.sleepMs 5,
      Event.readReg MODE1 (some m),
      Event.writeReg MODE1 (Nat.ldiff m SLEEP : Nat),
      Event.sleepMs 5], none) := by
  simp [init, set_all_pwm, h]

/-- The full transaction sequence of `set_pwm_freq(60)` when the MODE1
readback parses as `m`. -/
theorem set_pwm_freq_60_eq (t : Transport) (m : Nat) (h : t.read_val MODE1 = some m) :
    set_pwm_freq t 60 = ([Event.readReg MODE1 (some m),
      Event.writeReg MODE1 ((Nat.ldiff m RESTART) ||| SLEEP : Nat),
      Event.writeReg PRESCALE 101,
      Event.writeReg MODE1 (m : Nat),
      Event.sleepMs 5,
      Event.writeReg MODE1 (m ||| RESTART : Nat)], none) := by
  simp [set_pwm_freq, h, computePrescale_60]

/-- Splitting `prescaleSleepOK` across a concatenation. -/
theorem prescaleSleepOK_append (s : Option Bool) (t1 t2 : List Event) :
    prescaleSleepOK s (t1 ++ t2) =
      (prescaleSleepOK s t1 && prescaleSleepOK (lastSleepBit s t1) t2) := by
  induction t1 generalizing s with
  | nil => simp [prescaleSleepOK, lastSleepBit]
  | cons e rest ih =>
    cases e with
    | writeReg r v =>
      have hPM : (PRESCALE = MODE1) = False := by decide
      have hMP : (MODE1 = PRESCALE) = False := by decide
      by_cases hP : r = PRESCALE
      · subst hP
        simp [prescaleSleepOK, lastSleepBit, hPM, ih, Bool.and_assoc]
      · by_cases hM : r = MODE1
        · subst hM
          simp [prescaleSleepOK, lastSleepBit, hMP, ih]
        · simp [prescaleSleepOK, lastSleepBit, hP, hM, ih]
    | probe => simp [prescaleSleepOK, lastSleepBit, ih]
    | readReg r v => simp [prescaleSleepOK, lastSleepBit, ih]
    | writeRaw v => simp [prescaleSleepOK, lastSleepBit, ih]
    | sleepMs d => simp [prescaleSleepOK, lastSleepBit, ih]

/-- `set_pwm` on an in-range channel touches neither MODE1 nor PRESCALE. -/
theorem prescaleSleepOK_set_pwm (s : Option Bool) (c a b : Nat) (hc : c ≤ 15) :
    prescaleSleepOK s (set_pwm c a b) = true := by
  have h1 : ¬(LED0_ON_L + 4 * c = PRESCALE) := by simp only [LED0_ON_L, PRESCALE]; omega
  have h2 : ¬(LED0_ON_H + 4 * c = PRESCALE) := by simp only [LED0_ON_H, PRESCALE]; omega
  have h3 : ¬(LED0_OFF_L + 4 * c = PRESCALE) := by simp only [LED0_OFF_L, PRESCALE]; omega
  have h4 : ¬(LED0_OFF_H + 4 * c = PRESCALE) := by simp only [LED0_OFF_H, PRESCALE]; omega
  have g1 : ¬(LED0_ON_L + 4 * c = MODE1) := by simp only [LED0_ON_L, MODE1]; omega
  have g2 : ¬(LED0_ON_H + 4 * c = MODE1) := by simp only [LED0_ON_H, MODE1]; omega
  have g3 : ¬(LED0_OFF_L + 4 * c = MODE1) := by simp only [LED0_OFF_L, MODE1]; omega
  have g4 : ¬(LED0_OFF_H + 4 * c = MODE1) := by simp only [LED0_OFF_H, MODE1]; omega
  simp [set_pwm, prescaleSleepOK, h1, h2, h3, h4, g1, g2, g3, g4]

/-- `lastSleepBit` is unchanged by `set_pwm` on an in-range channel. -/
theorem lastSleepBit_set_pwm (s : Option Bool) (c a b : Nat) (hc : c ≤ 15) :
    lastSleepBit s (set_pwm c a b) = s := by
  have g1 : ¬(LED0_ON_L + 4 * c = MODE1) := by simp only [LED0_ON_L, MODE1]; omega
  have g2 : ¬(LED0_ON_H + 4 * c = MODE1) := by simp only [LED0_ON_H, MODE1]; omega
  have g3 : ¬(LED0_OFF_L + 4 * c = MODE1) := by simp only [LED0_OFF_L, MODE1]; omega
  have g4 : ¬(LED0_OFF_H + 4 * c = MODE1) := by simp only [LED0_OFF_H, MODE1]; omega
  simp [set_pwm, lastSleepBit, g1, g2, g3, g4]

/-- `prescaleSleepOK` holds across one method invocation, from any incoming
MODE1 state, provided `set_pwm` channels stay in the documented domain. -/
theorem prescaleSleepOK_op (s : Option Bool) (op : Op)
    (hc : ∀ c a b, op = Op.opSetPwm c a b → c ≤ 15) :
    prescaleSleepOK s (opTrace op) = true := by
  cases op with
  | opInit t =>
    cases h : t.read_val MODE1 with
    | none =>
      simp only [ MODE1] at h
      simp [opTrace, init, set_all_pwm, h, prescaleSleepOK,
        MODE1, MODE2, PRESCALE, ALL_LED_ON_L, ALL_LED_ON_H, ALL_LED_OFF_L, ALL_LED_OFF_H]
    | some m =>
      simp only [ MODE1] at h
      simp [opTrace, init, set_all_pwm, h, prescaleSleepOK,
        MODE1, MODE2, PRESCALE, ALL_LED_ON_L, ALL_LED_ON_H, ALL_LED_OFF_L, ALL_LED_OFF_H]
  | opSetPwmFreq t f =>
    cases h : t.read_val MODE1 with
    | none =>
      simp only [ MODE1] at h
      simp [opTrace, set_pwm_freq, h, prescaleSleepOK, MODE1, PRESCALE]
    | some m =>
      simp only [ MODE1] at h
      have hb : ((Nat.ldiff m 128) ||| 16).testBit 4 = true := sleep_entry_testBit4 m
      simp [opTrace, set_pwm_freq, h, prescaleSleepOK, hb,
        MODE1, PRESCALE, RESTART, SLEEP]
  | opSetPwm c a b =>
    exact prescaleSleepOK_set_pwm s c a b (hc c a b rfl)
  | opSetAllPwm a b =>
    simp [opTrace, set_all_pwm, prescaleSleepOK,
      MODE1, PRESCALE, ALL_LED_ON_L, ALL_LED_ON_H, ALL_LED_OFF_L, ALL_LED_OFF_H]
  | opSoftwareReset =>
    simp [opTrace, software_reset, prescaleSleepOK]

/-- The PRESCALE-only-while-asleep check holds for every invocation
sequence whose `set_pwm` channels are in [0, 15], from any start state. -/
theorem prescaleSleepOK_prog (ops : List Op) (h : validChannels ops = true)
    (s : Option Bool) : prescaleSleepOK s (progTrace ops) = true := by
  induction ops generalizing s with
  | nil => simp [progTrace, prescaleSleepOK]
  | cons op rest ih =>
    have hrest : validChannels rest = true := by
      cases op with
      | opSetPwm c a b =>
        simp only [validChannels, Bool.and_eq_true, decide_eq_true_eq] at h
        exact h.2
      | opInit t => exact h
      | opSetPwmFreq t f => exact h
      | opSetAllPwm a b => exact h
      | opSoftwareReset => exact h
    have hop : prescaleSleepOK s (opTrace op) = true := by
      apply prescaleSleepOK_op
      intro c a b he
      rw [he] at h
      simp only [validChannels, Bool.and_eq_true, decide_eq_true_eq] at h
      exact h.1
    rw [progTrace, prescaleSleepOK_append, hop, Bool.true_and]
    exact ih hrest _

/-- C1 (counterexample): the prescale formula at 60 Hz does NOT evaluate to
the claimed reference value 25:
floor(25000000 / 4096 / 60 - 1 + 0.5) = floor(101.225...) = 101. -/
theorem c1_cx_prescale60_ne_25 : computePrescale 60 ≠ 25 := by
  simp [computePrescale_60]

/-- C1 (amended): `computePrescale(60)` is 101, and 101 is the value
`set_pwm_freq(60)` writes to the PRESCALE register. -/
theorem c1_prescale60_eq_101 (t : Transport) (m : Nat)
    (h : t.read_val MODE1 = some m) :
    computePrescale 60 = 101 ∧
      Event.writeReg PRESCALE 101 ∈ (set_pwm_freq t 60).1 := by
  refine ⟨computePrescale_60, ?_⟩
  rw [set_pwm_freq_60_eq t m h]
  simp

/-- Witness for C1 at the concrete bus `tRead49`. -/
theorem c1_prescale60_eq_101_witness :
    tRead49.read_val MODE1 = some 0x31 ∧
      (computePrescale 60 = 101 ∧
        Event.writeReg PRESCALE 101 ∈ (set_pwm_freq tRead49 60).1) :=
  ⟨rfl, c1_prescale60_eq_101 tRead49 0x31 rfl⟩

/-- C2 (counterexample): with oldMode = 0, `set_pwm_freq(60)` never writes
25 to PRESCALE (it writes 101), and its trace contains exactly ONE timed
suspension, not the two the claim asserts. -/
theorem c2_cx_prescale101_one_suspension :
    Event.writeReg PRESCALE 25 ∉ (set_pwm_freq tReadZero 60).1 ∧
      List.countP isSleepEvent (set_pwm_freq tReadZero 60).1 = 1 := by
  rw [set_pwm_freq_60_eq tReadZero 0 rfl]
  rw [ldiff_eq_xor_and]
  decide

/-- C2 (amended): for every MODE1 value oldMode read at the start,
`set_pwm_freq(60)` issues exactly one read of MODE1 followed by exactly
four writes in this order: MODE1 = (oldMode & ~RESTART) | SLEEP,
PRESCALE = 101, MODE1 = oldMode, MODE1 = oldMode | RESTART, with a single
5 ms suspension between the third and fourth writes, and no other
transport transactions. -/
theorem c2_setfreq60_trace (t : Transport) (m : Nat)
    (h : t.read_val MODE1 = some m) :
    set_pwm_freq t 60 = ([Event.readReg MODE1 (some m),
      Event.writeReg MODE1 ((Nat.ldiff m RESTART) ||| SLEEP : Nat),
      Event.writeReg PRESCALE 101,
      Event.writeReg MODE1 (m : Nat),
      Event.sleepMs 5,
      Event.writeReg MODE1 (m ||| RESTART : Nat)], none) :=
  set_pwm_freq_60_eq t m h

/-- Witness for C2 at the concrete bus `tRead49`. -/
theorem c2_setfreq60_trace_witness :
    tRead49.read_val MODE1 = some 0x31 ∧
      set_pwm_freq tRead49 60 = ([Event.readReg MODE1 (some 0x31),
        Event.writeReg MODE1 ((Nat.ldiff 0x31 RESTART) ||| SLEEP : Nat),
        Event.writeReg PRESCALE 101,
        Event.writeReg MODE1 (0x31 : Nat),
        Event.sleepMs 5,
        Event.writeReg MODE1 (0x31 ||| RESTART : Nat)], none) :=
  ⟨rfl, c2_setfreq60_trace tRead49 0x31 rfl⟩

/-- C3 (counterexample): `set_pwm` with channel = 16 (outside [0, 15])
raises nothing and issues its four write transactions anyway, to the
addresses 0x46-0x49 that lie past the channel-15 registers. -/
theorem c3_cx_channel16_writes :
    set_pwm 16 0 0 = [Event.writeReg 0x46 0, Event.writeReg 0x47 0,
      Event.writeReg 0x48 0, Event.writeReg 0x49 0] ∧
      set_pwm 16 0 0 ≠ [] := by
  decide

/-- C3 (amended): `set_pwm` performs no range validation at all — there is
no RangeError in the code — so even for channel, on or off outside their
documented domains the four register writes are issued unconditionally. -/
theorem c3_no_validation (channel on_ticks off_ticks : Nat)
    (_h : 15 < channel ∨ 4095 < on_ticks ∨ 4095 < off_ticks) :
    (set_pwm channel on_ticks off_ticks).length = 4 ∧
      set_pwm channel on_ticks off_ticks =
        [Event.writeReg (LED0_ON_L + 4 * channel) (on_ticks &&& 0xFF : Nat),
         Event.writeReg (LED0_ON_H + 4 * channel) (on_ticks >>> 8 : Nat),
         Event.writeReg (LED0_OFF_L + 4 * channel) (off_ticks &&& 0xFF : Nat),
         Event.writeReg (LED0_OFF_H + 4 * channel) (off_ticks >>> 8 : Nat)] :=
  ⟨rfl, rfl⟩

/-- Witness for C3 at channel 16. -/
theorem c3_no_validation_witness :
    (15 < 16 ∨ 4095 < 0 ∨ 4095 < 0) ∧
      ((set_pwm 16 0 0).length = 4 ∧
        set_pwm 16 0 0 =
          [Event.writeReg (LED0_ON_L + 4 * 16) (0 &&& 0xFF : Nat),
           Event.writeReg (LED0_ON_H + 4 * 16) (0 >>> 8 : Nat),
           Event.writeReg (LED0_OFF_L + 4 * 16) (0 &&& 0xFF : Nat),
           Event.writeReg (LED0_OFF_H + 4 * 16) (0 >>> 8 : Nat)]) :=
  ⟨by decide, c3_no_validation 16 0 0 (by decide)⟩

/-- C4 (counterexample): on a bus that fails every write to MODE2,
construction still completes without raising anything — `write_reg` never
checks the subprocess result, and no DeviceInitError exists in the code. -/
theorem c4_cx_mode2_write_failure_ignored :
    tNoAckMode2.writeOk MODE2 (OUTDRV : Nat) = false ∧
      (init tNoAckMode2).2 = none ∧ (init tNoAckMode2).1 ≠ [] := by
  refine ⟨by decide, by decide, ?_⟩
  rw [init_eq tNoAckMode2 0 rfl]
  decide

/-- C4 (amended): transport write failures during the power-on sequence
are ignored (the `i2cset`/`i2cdetect` results are never consulted), so
construction completes without error whenever the MODE1 readback parses,
regardless of the write outcomes; the only failing construction is an
unparseable MODE1 readback, which raises ValueError, not DeviceInitError. -/
theorem c4_init_ignores_write_failures (t u : Transport) (m : Nat)
    (h : t.read_val MODE1 = some m) (hu : u.read_val MODE1 = none) :
    (init t).2 = none ∧ (init u).2 = some PyErr.valueError := by
  constructor
  · rw [init_eq t m h]
  · simp [init, hu]

/-- Witness for C4: a bus failing the MODE2 write (reads fine) and a bus
whose reads fail. -/
theorem c4_init_ignores_write_failures_witness :
    tNoAckMode2.read_val MODE1 = some 0 ∧ tReadFail.read_val MODE1 = none ∧
      ((init tNoAckMode2).2 = none ∧ (init tReadFail).2 = some PyErr.valueError) :=
  ⟨rfl, rfl, c4_init_ignores_write_failures tNoAckMode2 tReadFail 0 rfl rfl⟩

/-- C5 (counterexample): the code does not validate channels, and
`set_pwm(62, _, _)` writes register LED0_ON_L + 4·62 = 0xFE = PRESCALE;
after a normal construction (chip awake, SLEEP bit cleared) this writes
PRESCALE while the most recent MODE1 write left SLEEP clear, violating
the invariant as stated. -/
theorem c5_cx_prescale_written_awake :
    prescaleSleepOK none
      (progTrace [Op.opInit tReadZero, Op.opSetPwm 62 0 0]) = false := by
  have h := init_eq tReadZero 0 rfl
  simp only [progTrace, opTrace, h, ldiff_eq_xor_and]
  decide

/-- C5 (amended): in every transaction sequence produced by controller
method invocations whose `set_pwm` channels stay in the documented domain
[0, 15], every write to PRESCALE happens while the most recent MODE1 write
left the SLEEP bit (0x10) set, with no intervening MODE1 write clearing
it: PRESCALE is never written while the chip is awake. -/
theorem c5_prescale_only_asleep (ops : List Op)
    (h : validChannels ops = true) :
    prescaleSleepOK none (progTrace ops) = true :=
  prescaleSleepOK_prog ops h none

/-- Witness for C5 on a representative full session. -/
theorem c5_prescale_only_asleep_witness :
    validChannels sessionOps = true ∧
      prescaleSleepOK none (progTrace sessionOps) = true :=
  ⟨by decide, c5_prescale_only_asleep sessionOps (by decide)⟩

/-- C6: a successful construction performs, in order: a probe, the
broadcast zeroing of all channels (on = 0, off = 0), write MODE2 =
OUTDRV = 0x04, write MODE1 = ALLCALL = 0x01, a 5 ms suspension, the MODE1
readback, the write-back of the read value with the SLEEP bit cleared and
every other bit unchanged, and a final 5 ms suspension. -/
theorem c6_init_sequence (t : Transport) (m i : Nat)
    (h : t.read_val MODE1 = some m) (hi : i ≠ 4) :
    init t = ([Event.probe,
      Event.writeReg ALL_LED_ON_L 0, Event.writeReg ALL_LED_ON_H 0,
      Event.writeReg ALL_LED_OFF_L 0, Event.writeReg ALL_LED_OFF_H 0,
      Event.writeReg MODE2 (OUTDRV : Nat), Event.writeReg MODE1 (ALLCALL : Nat),
      Event.sleepMs 5,
      Event.readReg MODE1 (some m),
      Event.writeReg MODE1 (Nat.ldiff m SLEEP : Nat),
      Event.sleepMs 5], none) ∧
      OUTDRV = 0x04 ∧ ALLCALL = 0x01 ∧
      (Nat.ldiff m SLEEP).testBit 4 = false ∧
      (Nat.ldiff m SLEEP).testBit i = m.testBit i :=
  ⟨init_eq t m h, rfl, rfl, ldiff_sleep_testBit4 m, ldiff_sleep_testBit m i hi⟩

/-- Witness for C6 at the concrete bus `tRead49`, bit 0. -/
theorem c6_init_sequence_witness :
    tRead49.read_val MODE1 = some 0x31 ∧ (0 : Nat) ≠ 4 ∧
      (init tRead49 = ([Event.probe,
        Event.writeReg ALL_LED_ON_L 0, Event.writeReg ALL_LED_ON_H 0,
        Event.writeReg ALL_LED_OFF_L 0, Event.writeReg ALL_LED_OFF_H 0,
        Event.writeReg MODE2 (OUTDRV : Nat), Event.writeReg MODE1 (ALLCALL : Nat),
        Event.sleepMs 5,
        Event.readReg MODE1 (some 0x31),
        Event.writeReg MODE1 (Nat.ldiff 0x31 SLEEP : Nat),
        Event.sleepMs 5], none) ∧
        OUTDRV = 0x04 ∧ ALLCALL = 0x01 ∧
        (Nat.ldiff 0x31 SLEEP).testBit 4 = false ∧
        (Nat.ldiff 0x31 SLEEP).testBit 0 = Nat.testBit 0x31 0) :=
  ⟨rfl, by decide, c6_init_sequence tRead49 0x31 0 rfl (by decide)⟩

/-- C7: for ticks in [0, 4095], the low/high split used by `set_pwm` and
`set_all_pwm` round-trips: (high <<< 8) ||| low = ticks. -/
theorem c7_splitTicks_roundtrip (ticks : Nat) (_h : ticks ≤ 4095) :
    ((splitTicks ticks).2 <<< 8) ||| (splitTicks ticks).1 = ticks := by
  have h255 : (255 : Nat) = 2 ^ 8 - 1 := by norm_num
  apply Nat.eq_of_testBit_eq
  intro i
  simp only [splitTicks, h255, Nat.and_pow_two_sub_one_eq_mod,
    Nat.testBit_or, Nat.testBit_shiftLeft, Nat.testBit_shiftRight,
    Nat.testBit_mod_two_pow]
  by_cases hi : 8 ≤ i
  · have hEq : 8 + (i - 8) = i := by omega
    have hlt : ¬ i < 8 := by omega
    simp [hi, hEq, hlt]
  · have hlt : i < 8 := by omega
    simp [hi, hlt]

/-- Witness for C7 at ticks = 300. -/
theorem c7_splitTicks_roundtrip_witness :
    (300 : Nat) ≤ 4095 ∧
      ((splitTicks 300).2 <<< 8) ||| (splitTicks 300).1 = 300 :=
  ⟨by decide, c7_splitTicks_roundtrip 300 (by decide)⟩

/-- C8: `set_all_pwm(0, 150)` issues exactly four writes, to
ALL_LED_ON_L = 0xFA, ALL_LED_ON_H = 0xFB, ALL_LED_OFF_L = 0xFC,
ALL_LED_OFF_H = 0xFD in that order, with values 0, 0, 150, 0, and no
other transactions. -/
theorem c8_set_all_pwm_trace :
    set_all_pwm 0 150 =
      [Event.writeReg ALL_LED_ON_L 0, Event.writeReg ALL_LED_ON_H 0,
       Event.writeReg ALL_LED_OFF_L 150, Event.writeReg ALL_LED_OFF_H 0] ∧
      ALL_LED_ON_L = 0xFA ∧ ALL_LED_ON_H = 0xFB ∧
      ALL_LED_OFF_L = 0xFC ∧ ALL_LED_OFF_H = 0xFD := by
  decide

/-- C9: over the chip's documented frequency range [24, 1526] Hz the
computed prescale value is monotonically non-increasing in the requested
frequency. -/
theorem c9_prescale_antitone (f1 f2 : ℚ) (h24 : 24 ≤ f1) (h12 : f1 ≤ f2)
    (_h1526 : f2 ≤ 1526) : computePrescale f2 ≤ computePrescale f1 := by
  simp only [computePrescale]
  apply Int.floor_le_floor
  have hf1 : 0 < f1 := by linarith
  have hf2 : 0 < f2 := by linarith
  have hd : (25000000 : ℚ) / 4096 / f2 ≤ 25000000 / 4096 / f1 := by
    gcongr
  linarith

/-- Witness for C9 at 60 Hz and 100 Hz. -/
theorem c9_prescale_antitone_witness :
    (24 : ℚ) ≤ 60 ∧ (60 : ℚ) ≤ 100 ∧ (100 : ℚ) ≤ 1526 ∧
      computePrescale 100 ≤ computePrescale 60 :=
  ⟨by norm_num, by norm_num, by norm_num,
    c9_prescale_antitone 60 100 (by norm_num) (by norm_num) (by norm_num)⟩

/-- C10: the wake-up step of construction writes back exactly
m & ~SLEEP = m & ~0x10 for the value m it read from MODE1, clearing bit 4
and preserving every other bit. -/
theorem c10_wake_write_frame (t : Transport) (m i : Nat)
    (h : t.read_val MODE1 = some m) (hi : i ≠ 4) :
    Event.writeReg MODE1 (Nat.ldiff m SLEEP : Nat) ∈ (init t).1 ∧
      (Nat.ldiff m SLEEP).testBit 4 = false ∧
      (Nat.ldiff m SLEEP).testBit i = m.testBit i := by
  refine ⟨?_, ldiff_sleep_testBit4 m, ldiff_sleep_testBit m i hi⟩
  rw [init_eq t m h]
  simp

/-- Witness for C10 at the concrete bus `tRead49`, bit 7. -/
theorem c10_wake_write_frame_witness :
    tRead49.read_val MODE1 = some 0x31 ∧ (7 : Nat) ≠ 4 ∧
      (Event.writeReg MODE1 (Nat.ldiff 0x31 SLEEP : Nat) ∈ (init tRead49).1 ∧
        (Nat.ldiff 0x31 SLEEP).testBit 4 = false ∧
        (Nat.ldiff 0x31 SLEEP).testBit 7 = Nat.testBit 0x31 7) :=
  ⟨rfl, by decide, c10_wake_write_frame tRead49 0x31 7 rfl (by decide)⟩

end PCA9685
